import Mathlib

/-!
# Battleship client session layer: verification

Shallow embedding of the session-synchronization core of
`src/frontend/app/page.tsx` (the first, richer implementation in that file,
which the design document designates as authoritative): the board store
(`updateGrid`, `createEmptyBoard`), the message handler (`ws.onmessage`),
the shot guard (`handleShot`), mission start (`startBotGame`), and the
event-level state machine of one session instance.

React `useState` cells become fields of `SessionState`; each source
function becomes a pure function from state (plus the event's data) to a
new state together with a list of externally visible `Action`s (socket
sends, socket closes, console output, connection opening).  JavaScript
exceptions are modelled as `Except.error`.
-/

namespace Battleship

/-- Cell state of one board square (`type CellState`, source line 5). -/
inductive Cell where
  | Empty
  | Hit
  | Miss
  | Ship
deriving DecidableEq, Repr

/-- A JavaScript array slot: either a stored `Cell` or a hole (`undefined`),
which arises when an assignment past the end of an array turns it sparse. -/
inductive JSCell where
  | cell (c : Cell)
  | hole
deriving DecidableEq, Repr

/-- A board as the source stores it: a dynamic array of dynamic arrays. -/
abbrev Board := List (List JSCell)

/-- `GRID_SIZE` (source line 29). -/
def GRID_SIZE : Nat := 10

/-- `createEmptyBoard` (source lines 36-37): a 10×10 grid of `"Empty"`. -/
def createEmptyBoard : Board :=
  List.replicate GRID_SIZE (List.replicate GRID_SIZE (JSCell.cell Cell.Empty))

/-- JavaScript array element assignment `a[i] = v`: in range it overwrites;
past the end it extends the array to length `i + 1`, filling any skipped
slots with holes. -/
def jsAssign (l : List JSCell) (i : Nat) (v : JSCell) : List JSCell :=
  if i < l.length then l.set i v
  else l ++ List.replicate (i - l.length) JSCell.hole ++ [v]

/-- `updateGrid`'s updater (source lines 56-67): copy every row
(`prev.map((r) => [...r])`), then perform the raw JavaScript assignment
`newBoard[row][col] = result`.  When `row` is out of range, `newBoard[row]`
is `undefined` and the assignment throws a `TypeError` (no bounds check in
the source), modelled as `Except.error`. -/
def updateGrid (prev : Board) (row col : Nat) (result : Cell) :
    Except String Board :=
  let newBoard := prev.map (fun r => r.map (fun c => c))
  match newBoard.get? row with
  | none => Except.error "TypeError"
  | some r => Except.ok (newBoard.set row (jsAssign r col (JSCell.cell result)))

/-- Total cell accessor used to state theorems: `b[r][c]`, with holes for
out-of-range indices. -/
def cellAtD (b : Board) (r c : Nat) : JSCell :=
  (b.getD r []).getD c JSCell.hole

/-- Winner tag carried by a turn update (`"User" | "Bot"`, source line 18). -/
inductive Winner where
  | User
  | Bot
deriving DecidableEq, Repr

/-- `type Difficulty` (source line 6). -/
inductive Difficulty where
  | Easy
  | Medium
  | Hard
deriving DecidableEq, Repr

/-- `type GameStatus` (source lines 7-13); constructor names follow the
source's string values (`"Connecting..."` becomes `Connecting`,
`"Battle Active"` becomes `BattleActive`). -/
inductive GameStatus where
  | Disconnected
  | Connecting
  | BattleActive
  | VICTORY
  | DEFEAT
  | Error
deriving DecidableEq, Repr

/-- One shot outcome inside a turn update (source lines 16-17). -/
structure ShotResult where
  row : Nat
  col : Nat
  result : Cell
deriving DecidableEq, Repr

/-- `interface TurnUpdate` (source lines 15-19).  The source's
`winner?: "User" | "Bot" | null` is collapsed to `Option Winner`: a missing
field and an explicit `null` are both falsy in the guard `if (gameWinner)`. -/
structure TurnUpdate where
  user : Option ShotResult
  bot : Option ShotResult
  winner : Option Winner
deriving DecidableEq, Repr

/-- `interface WSMessage` (source lines 21-27).  `type` and `status` are
kept as raw strings so that frames with unrecognized discriminators are
representable. -/
structure WSMessage where
  type : Option String
  status : Option String
  board : Option Board
  turn_update : Option TurnUpdate
  message : Option String
deriving DecidableEq, Repr

/-- The React state cells of `GamePage` (source lines 40-48) plus the
`socketRef` handle.  The handle stores the session id the socket was opened
with; only its presence or absence matters to the control flow. -/
structure SessionState where
  gameId : String
  status : GameStatus
  winner : Option Winner
  difficulty : Difficulty
  myBoard : Board
  enemyBoard : Board
  socket : Option String
deriving DecidableEq, Repr

/-- Externally visible effects of the client: socket sends and closes,
console output, and opening a connection. -/
inductive Action where
  | send (payload : String)
  | close
  | warn (message : Option String)
  | logError
  | connect (id : String)
deriving DecidableEq, Repr

/-- The outbound wire format of a shot: `` `${row},${col}` `` (source
line 130). -/
def shotPayload (row col : Nat) : String :=
  toString row ++ "," ++ toString col

/-- `handleShot` (source lines 128-131).  The guard is
`!socketRef.current || winner || enemyBoard[row][col] !== "Empty"`,
evaluated left to right with short-circuiting.  A read `enemyBoard[row]`
with `row` out of range yields `undefined`, and `undefined[col]` throws;
a read `row[col]` with `col` out of range yields `undefined`, which is
`!== "Empty"`. -/
def handleShot (s : SessionState) (row col : Nat) :
    Except String (List Action) :=
  match s.socket with
  | none => Except.ok []
  | some _ =>
    if s.winner.isSome then Except.ok []
    else
      match s.enemyBoard.get? row with
      | none => Except.error "TypeError"
      | some r =>
        if r.getD col JSCell.hole ≠ JSCell.cell Cell.Empty then Except.ok []
        else Except.ok [Action.send (shotPayload row col)]

/-- `ws.onopen` (source line 74). -/
def onOpen (s : SessionState) : SessionState :=
  { s with status := GameStatus.BattleActive }

/-- The ternary `gameWinner === "User" ? "VICTORY" : "DEFEAT"`
(source line 89). -/
def winStatus : Winner → GameStatus
  | Winner.User => GameStatus.VICTORY
  | Winner.Bot => GameStatus.DEFEAT

/-- The `if (gameWinner)` block of `ws.onmessage` (source lines 87-92):
record the winner, set the terminal status, close the socket and drop the
handle. -/
def handleWinner (s : SessionState) (w : Option Winner) :
    SessionState × List Action :=
  match w with
  | none => (s, [])
  | some gw =>
    ({ s with winner := some gw, status := winStatus gw, socket := none },
     [Action.close])

/-- `if (user) updateGrid(setEnemyBoard, ...)` (source line 84). -/
def applyUser (s : SessionState) (u : Option ShotResult) :
    Except String SessionState :=
  match u with
  | none => Except.ok s
  | some r =>
    (updateGrid s.enemyBoard r.row r.col r.result).map
      (fun b => { s with enemyBoard := b })

/-- `if (bot) updateGrid(setMyBoard, ...)` (source line 85). -/
def applyBot (s : SessionState) (u : Option ShotResult) :
    Except String SessionState :=
  match u with
  | none => Except.ok s
  | some r =>
    (updateGrid s.myBoard r.row r.col r.result).map
      (fun b => { s with myBoard := b })

/-- The dispatch of `ws.onmessage` on an already-parsed frame (source
lines 79-95): `init` with a board overwrites `myBoard`; `success` with a
`turn_update` applies the two shot results and then the winner block;
`error` only logs a warning; anything else falls through all branches and
does nothing. -/
def handleParsed (s : SessionState) (data : WSMessage) :
    Except String (SessionState × List Action) :=
  match data.type, data.board with
  | some "init", some b => Except.ok ({ s with myBoard := b }, [])
  | _, _ =>
    match data.status, data.turn_update with
    | some "success", some tu => do
      let s1 ← applyUser s tu.user
      let s2 ← applyBot s1 tu.bot
      Except.ok (handleWinner s2 tu.winner)
    | _, _ =>
      match data.status with
      | some "error" => Except.ok (s, [Action.warn data.message])
      | _ => Except.ok (s, [])

/-- `ws.onmessage` (source lines 76-96).  The inbound text is given as the
outcome of `JSON.parse`: `none` models text that fails to parse, in which
case `JSON.parse` throws and, since the handler has no try/catch, the
exception escapes the handler, modelled as `Except.error`. -/
def handleMessage (s : SessionState) (frame : Option WSMessage) :
    Except String (SessionState × List Action) :=
  match frame with
  | none => Except.error "SyntaxError"
  | some data => handleParsed s data

/-- Events of one session instance.  `connectToWebsocket` (source
lines 69-99) installs handlers only for `onopen` and `onmessage`; the
socket's `close` and `error` events therefore run no client code. -/
inductive Ev where
  | opened
  | message (frame : Option WSMessage)
  | closed
  | errored
  | shot (row col : Nat)
deriving DecidableEq, Repr

/-- One step of the session instance: dispatch an event to the handler the
source installs for it.  `closed` and `errored` have no handler and leave
the state untouched; `shot` never changes state (the source's `handleShot`
only sends). -/
def step (s : SessionState) (e : Ev) :
    Except String (SessionState × List Action) :=
  match e with
  | Ev.opened => Except.ok (onOpen s, [])
  | Ev.message f => handleMessage s f
  | Ev.closed => Except.ok (s, [])
  | Ev.errored => Except.ok (s, [])
  | Ev.shot row col => (handleShot s row col).map (fun acts => (s, acts))

/-- First half of `startBotGame` (source lines 101-108): close and discard
any existing connection (`socketRef.current?.close()`), clear the winner
and the game id, reset both boards, set status `Connecting...` - all
before the creation request is issued. -/
def resetForMission (s : SessionState) : SessionState × List Action :=
  ({ s with gameId := "", status := GameStatus.Connecting, winner := none,
            myBoard := createEmptyBoard, enemyBoard := createEmptyBoard,
            socket := none },
   match s.socket with
   | some _ => [Action.close]
   | none => [])

/-- `startBotGame` (source lines 101-126).  `resp` is the outcome of the
creation exchange: `none` when the `fetch` rejects, the response is not ok
(`throw new Error("Server Offline")`), or the body fails to parse - all of
which land in the catch block - and `some id` on success.  On success
`connectToWebsocket(id)` is entered with `socketRef.current == null`, so
its idempotency guard passes and a connection is opened. -/
def startBotGame (s : SessionState) (resp : Option String) :
    SessionState × List Action :=
  let r := resetForMission s
  match resp with
  | none => ({ r.1 with status := GameStatus.Error }, r.2 ++ [Action.logError])
  | some id =>
    ({ r.1 with gameId := id, socket := some id }, r.2 ++ [Action.connect id])

/-- Recognizer for the socket-close action, for counting closes. -/
def isClose : Action → Bool
  | Action.close => true
  | _ => false

/-- Number of `close()` calls among a list of actions. -/
def closeCount (acts : List Action) : Nat :=
  (acts.filter isClose).length

/-- Session invariant tying the winner to the terminal handling in
`ws.onmessage`: once a winner is recorded, the status is the matching
terminal status and the connection handle has been cleared. -/
def Inv (s : SessionState) : Prop :=
  ∀ w, s.winner = some w → s.status = winStatus w ∧ s.socket = none

/-- `opened` and `message` are events the WebSocket delivers; per the
WebSocket protocol they fire only while the connection is open - in this
model, while the handle is still held (`close()` leaves the OPEN state, and
message events are not fired afterwards). -/
def connEv : Ev → Bool
  | Ev.opened => true
  | Ev.message _ => true
  | _ => false

/-- Executions of one session instance: event sequences in which every step
succeeds and connection-delivered events occur only while the handle is
held. -/
inductive InstTrace :
    SessionState → List Ev → List Action → SessionState → Prop where
  | nil (s : SessionState) : InstTrace s [] [] s
  | cons (s : SessionState) (e : Ev) (s1 : SessionState) (acts1 : List Action)
      (evs : List Ev) (acts2 : List Action) (s2 : SessionState)
      (hstep : step s e = Except.ok (s1, acts1))
      (hconn : connEv e = true → s.socket ≠ none)
      (htail : InstTrace s1 evs acts2 s2) :
      InstTrace s (e :: evs) (acts1 ++ acts2) s2

/-- A session in mid-battle: connection open, no winner, fresh boards. -/
def sActive : SessionState :=
  { gameId := "g", status := GameStatus.BattleActive, winner := none,
    difficulty := Difficulty.Easy, myBoard := createEmptyBoard,
    enemyBoard := createEmptyBoard, socket := some "g" }

/-- A session between `connectToWebsocket` and the `onopen` signal: the
handle is already held but the status is still `Connecting...`. -/
def sConnecting : SessionState :=
  { sActive with status := GameStatus.Connecting }

/-- A Result/success frame carrying a turn update (wire shape
`{"status":"success","turn_update":...}`). -/
def successFrame (tu : TurnUpdate) : WSMessage :=
  { type := none, status := some "success", board := none,
    turn_update := some tu, message := none }

/-! ## Board-store lemmas -/

lemma copy_eq (b : Board) : b.map (fun r => r.map (fun c => c)) = b := by
  simp [List.map_id']

lemma updateGrid_eq (prev : Board) (row col : Nat) (v : Cell) :
    updateGrid prev row col v =
      match prev.get? row with
      | none => Except.error "TypeError"
      | some r => Except.ok (prev.set row (jsAssign r col (JSCell.cell v))) := by
  unfold updateGrid
  simp only [copy_eq]

lemma getD_row_eq {b : Board} {row : Nat} (h : row < b.length) :
    b.get? row = some (b.getD row []) := by
  rw [List.get?_eq_getElem?, List.getElem?_eq_getElem h,
    List.getD_eq_getElem?_getD, List.getElem?_eq_getElem h]
  rfl

lemma updateGrid_ok {prev : Board} {row : Nat} (h : row < prev.length)
    (col : Nat) (v : Cell) :
    updateGrid prev row col v =
      Except.ok (prev.set row (jsAssign (prev.getD row []) col (JSCell.cell v))) := by
  rw [updateGrid_eq, getD_row_eq h]

lemma updateGrid_err {prev : Board} {row : Nat} (h : prev.length ≤ row)
    (col : Nat) (v : Cell) :
    updateGrid prev row col v = Except.error "TypeError" := by
  rw [updateGrid_eq, List.get?_eq_getElem?, List.getElem?_eq_none h]

lemma getD_set_self {α} {l : List α} {i : Nat} (h : i < l.length) (a d : α) :
    (l.set i a).getD i d = a := by
  rw [List.getD_eq_getElem?_getD, List.getElem?_set_self h]
  rfl

lemma getD_set_ne {α} {l : List α} {i j : Nat} (h : i ≠ j) (a d : α) :
    (l.set i a).getD j d = l.getD j d := by
  rw [List.getD_eq_getElem?_getD, List.getElem?_set_ne h,
    ← List.getD_eq_getElem?_getD]

lemma jsAssign_length_of_lt {l : List JSCell} {i : Nat} (h : i < l.length)
    (v : JSCell) : (jsAssign l i v).length = l.length := by
  unfold jsAssign
  rw [if_pos h, List.length_set]

lemma jsAssign_length_of_ge {l : List JSCell} {i : Nat} (h : l.length ≤ i)
    (v : JSCell) : (jsAssign l i v).length = i + 1 := by
  unfold jsAssign
  rw [if_neg (by omega)]
  simp only [List.length_append, List.length_replicate, List.length_cons,
    List.length_nil]
  omega

lemma jsAssign_getD_self (l : List JSCell) (i : Nat) (v : JSCell) :
    (jsAssign l i v).getD i JSCell.hole = v := by
  unfold jsAssign
  by_cases h : i < l.length
  · rw [if_pos h, getD_set_self h]
  · rw [if_neg h, List.getD_eq_getElem?_getD]
    have hlen : (l ++ List.replicate (i - l.length) JSCell.hole).length = i := by
      simp only [List.length_append, List.length_replicate]
      omega
    rw [List.getElem?_append_right (by omega)]
    rw [hlen]
    simp

lemma jsAssign_getD_ne_of_lt {l : List JSCell} {i j : Nat} (hij : i ≠ j)
    (v : JSCell) : i < l.length →
    (jsAssign l i v).getD j JSCell.hole = l.getD j JSCell.hole := by
  intro h
  unfold jsAssign
  rw [if_pos h, getD_set_ne hij]


/-! ## Message-handler lemmas -/

lemma applyUser_none (s : SessionState) : applyUser s none = Except.ok s := rfl

lemma applyBot_none (s : SessionState) : applyBot s none = Except.ok s := rfl

lemma applyUser_some {s : SessionState} {r : ShotResult}
    (h : r.row < s.enemyBoard.length) :
    applyUser s (some r) = Except.ok { s with enemyBoard := s.enemyBoard.set r.row (jsAssign (s.enemyBoard.getD r.row []) r.col (JSCell.cell r.result)) } := by
  simp only [applyUser]
  rw [updateGrid_ok h]
  rfl

lemma applyBot_some {s : SessionState} {r : ShotResult}
    (h : r.row < s.myBoard.length) :
    applyBot s (some r) = Except.ok { s with myBoard := s.myBoard.set r.row (jsAssign (s.myBoard.getD r.row []) r.col (JSCell.cell r.result)) } := by
  simp only [applyBot]
  rw [updateGrid_ok h]
  rfl

lemma applyUser_ok {s : SessionState} {u : Option ShotResult} {s' : SessionState}
    (h : applyUser s u = Except.ok s') :
    s'.winner = s.winner ∧ s'.status = s.status ∧ s'.socket = s.socket ∧
    s'.gameId = s.gameId ∧ s'.myBoard = s.myBoard ∧ s'.difficulty = s.difficulty := by
  cases u with
  | none =>
    rw [applyUser_none] at h
    cases h
    exact ⟨rfl, rfl, rfl, rfl, rfl, rfl⟩
  | some r =>
    simp only [applyUser] at h
    cases hg : updateGrid s.enemyBoard r.row r.col r.result with
    | error e => rw [hg] at h; simp [Except.map] at h
    | ok b =>
      rw [hg] at h
      simp only [Except.map] at h
      cases h
      exact ⟨rfl, rfl, rfl, rfl, rfl, rfl⟩

lemma applyBot_ok {s : SessionState} {u : Option ShotResult} {s' : SessionState}
    (h : applyBot s u = Except.ok s') :
    s'.winner = s.winner ∧ s'.status = s.status ∧ s'.socket = s.socket ∧
    s'.gameId = s.gameId ∧ s'.enemyBoard = s.enemyBoard ∧
    s'.difficulty = s.difficulty := by
  cases u with
  | none =>
    rw [applyBot_none] at h
    cases h
    exact ⟨rfl, rfl, rfl, rfl, rfl, rfl⟩
  | some r =>
    simp only [applyBot] at h
    cases hg : updateGrid s.myBoard r.row r.col r.result with
    | error e => rw [hg] at h; simp [Except.map] at h
    | ok b =>
      rw [hg] at h
      simp only [Except.map] at h
      cases h
      exact ⟨rfl, rfl, rfl, rfl, rfl, rfl⟩

lemma handleParsed_success (s : SessionState) (tu : TurnUpdate) :
    handleParsed s (successFrame tu) =
      (applyUser s tu.user).bind (fun s1 =>
        (applyBot s1 tu.bot).bind (fun s2 =>
          Except.ok (handleWinner s2 tu.winner))) := rfl

lemma handleWinner_none (s : SessionState) : handleWinner s none = (s, []) := rfl


lemma cellAtD_set_row {b : Board} {row : Nat} (h : row < b.length)
    (col : Nat) (v : Cell) :
    cellAtD (b.set row (jsAssign (b.getD row []) col (JSCell.cell v))) row col =
      JSCell.cell v := by
  unfold cellAtD
  rw [getD_set_self h, jsAssign_getD_self]

lemma applyUser_total {s : SessionState} {uo : Option ShotResult}
    (h : ∀ u, uo = some u → u.row < s.enemyBoard.length) :
    ∃ s1, applyUser s uo = Except.ok s1 ∧
      (uo = none → s1.enemyBoard = s.enemyBoard) ∧
      (∀ u, uo = some u →
        cellAtD s1.enemyBoard u.row u.col = JSCell.cell u.result) ∧
      s1.winner = s.winner ∧ s1.status = s.status ∧ s1.socket = s.socket ∧
      s1.gameId = s.gameId ∧ s1.myBoard = s.myBoard ∧
      s1.difficulty = s.difficulty := by
  cases uo with
  | none =>
    refine ⟨s, applyUser_none s, fun _ => rfl, ?_, rfl, rfl, rfl, rfl, rfl, rfl⟩
    intro u h'
    cases h'
  | some r =>
    have hr := h r rfl
    refine ⟨_, applyUser_some hr, ?_, ?_, rfl, rfl, rfl, rfl, rfl, rfl⟩
    · intro h'
      cases h'
    · intro u h'
      cases h'
      exact cellAtD_set_row hr r.col r.result

lemma applyBot_total {s : SessionState} {uo : Option ShotResult}
    (h : ∀ u, uo = some u → u.row < s.myBoard.length) :
    ∃ s1, applyBot s uo = Except.ok s1 ∧
      (uo = none → s1.myBoard = s.myBoard) ∧
      (∀ u, uo = some u →
        cellAtD s1.myBoard u.row u.col = JSCell.cell u.result) ∧
      s1.winner = s.winner ∧ s1.status = s.status ∧ s1.socket = s.socket ∧
      s1.gameId = s.gameId ∧ s1.enemyBoard = s.enemyBoard ∧
      s1.difficulty = s.difficulty := by
  cases uo with
  | none =>
    refine ⟨s, applyBot_none s, fun _ => rfl, ?_, rfl, rfl, rfl, rfl, rfl, rfl⟩
    intro u h'
    cases h'
  | some r =>
    have hr := h r rfl
    refine ⟨_, applyBot_some hr, ?_, ?_, rfl, rfl, rfl, rfl, rfl, rfl⟩
    · intro h'
      cases h'
    · intro u h'
      cases h'
      exact cellAtD_set_row hr r.col r.result


/-! ## Shot-guard and action-count lemmas -/

/-- Full characterization of the `handleShot` guard when the board has a
row `row`: a payload is sent exactly when the handle is present, no winner
is set, and the targeted cell is `Empty`. -/
lemma handleShot_eq (s : SessionState) (row col : Nat)
    (h : row < s.enemyBoard.length) :
    handleShot s row col = Except.ok (
      if s.socket ≠ none ∧ s.winner = none ∧
          cellAtD s.enemyBoard row col = JSCell.cell Cell.Empty
        then [Action.send (shotPayload row col)] else []) := by
  cases hs : s.socket with
  | none =>
    simp only [handleShot, hs]
    rw [if_neg]
    rintro ⟨h1, -, -⟩
    exact h1 rfl
  | some id =>
    cases hw : s.winner with
    | some w =>
      simp only [handleShot, hs, hw, Option.isSome_some, if_true]
      rw [if_neg]
      rintro ⟨-, h2, -⟩
      cases h2
    | none =>
      simp only [handleShot, hs, hw, Option.isSome_none, Bool.false_eq_true,
        if_false, getD_row_eq h]
      by_cases hc :
          (s.enemyBoard.getD row []).getD col JSCell.hole = JSCell.cell Cell.Empty
      all_goals
        have hc' := hc
        simp only [List.getD_eq_getElem?_getD] at hc'
      · rw [if_neg (fun hne => hne hc)]
        simp [cellAtD, hc']
      · rw [if_pos hc]
        simp [cellAtD, hc']

lemma closeCount_nil : closeCount [] = 0 := rfl

lemma closeCount_append (a b : List Action) :
    closeCount (a ++ b) = closeCount a + closeCount b := by
  unfold closeCount
  rw [List.filter_append, List.length_append]

lemma closeCount_warn (m : Option String) : closeCount [Action.warn m] = 0 := rfl

lemma closeCount_close : closeCount [Action.close] = 1 := rfl

/-- `handleShot` never emits a `close()`. -/
lemma handleShot_closeCount {s : SessionState} {row col : Nat}
    {acts : List Action} (h : handleShot s row col = Except.ok acts) :
    closeCount acts = 0 := by
  unfold handleShot at h
  cases hs : s.socket <;> rw [hs] at h
  all_goals repeat' split at h
  all_goals try cases h
  all_goals rfl

/-- With a winner recorded, `handleShot`'s guard drops the call. -/
lemma handleShot_winner_set {s : SessionState} (row col : Nat)
    (hw : s.winner.isSome = true) : handleShot s row col = Except.ok [] := by
  cases hs : s.socket with
  | none => simp [handleShot, hs]
  | some id => simp [handleShot, hs, hw]

/-! ## In-range board updates -/

lemma cellAtD_set_other {b : Board} {row col : Nat} (hrow : row < b.length)
    (hcol : col < (b.getD row []).length) (v : Cell) :
    ∀ r c, ¬(r = row ∧ c = col) →
      cellAtD (b.set row (jsAssign (b.getD row []) col (JSCell.cell v))) r c =
        cellAtD b r c := by
  intro r c hne
  by_cases hr : r = row
  · subst hr
    have hc : c ≠ col := fun h => hne ⟨rfl, h⟩
    unfold cellAtD
    rw [getD_set_self hrow]
    exact jsAssign_getD_ne_of_lt (fun h => hc h.symm) (JSCell.cell v) hcol
  · unfold cellAtD
    rw [getD_set_ne (fun h => hr h.symm)]

/-- In-range behavior of `updateGrid`: the update succeeds, the targeted
cell holds the new value, every other cell is unchanged, and the grid
dimensions are preserved. -/
lemma updateGrid_in_range {b : Board} {row col : Nat} (v : Cell)
    (hrow : row < b.length) (hcol : col < (b.getD row []).length) :
    ∃ b', updateGrid b row col v = Except.ok b' ∧
      cellAtD b' row col = JSCell.cell v ∧
      (∀ r c, ¬(r = row ∧ c = col) → cellAtD b' r c = cellAtD b r c) ∧
      b'.length = b.length ∧
      (∀ i, (b'.getD i []).length = (b.getD i []).length) := by
  refine ⟨_, updateGrid_ok hrow col v, cellAtD_set_row hrow col v,
    cellAtD_set_other hrow hcol v, List.length_set b row _, ?_⟩
  intro i
  by_cases hi : i = row
  · subst hi
    rw [getD_set_self hrow, jsAssign_length_of_lt hcol]
  · rw [getD_set_ne (fun h => hi h.symm)]

/-! ## Winner and close analysis of one step -/

/-- Effect of one parsed frame on the winner, the close count and the
terminal status: either the winner is untouched and nothing is closed, or
a winner is recorded together with its terminal status, a cleared handle,
and exactly one `close()`. -/
lemma handleParsedInv (s : SessionState) (d : WSMessage) (s1 : SessionState)
    (acts1 : List Action)
    (hstep : handleParsed s d = Except.ok (s1, acts1)) :
    (s1.winner = s.winner ∧ closeCount acts1 = 0) ∨
      (∃ w, s1.winner = some w ∧ closeCount acts1 = 1 ∧
        s1.status = winStatus w ∧ s1.socket = none) := by
  unfold handleParsed at hstep
  split at hstep
  · cases hstep
    exact Or.inl ⟨rfl, rfl⟩
  · split at hstep
    · rename_i tu heq1 heq2
      change (applyUser s tu.user).bind (fun sA =>
        (applyBot sA tu.bot).bind (fun sB =>
          Except.ok (handleWinner sB tu.winner))) = Except.ok (s1, acts1)
        at hstep
      revert hstep
      cases h1 : applyUser s tu.user with
      | error e =>
        intro hstep
        simp only [Except.bind] at hstep
        cases hstep
      | ok sA =>
        intro hstep
        simp only [Except.bind] at hstep
        revert hstep
        cases h2 : applyBot sA tu.bot with
        | error e =>
          intro hstep
          simp only [Except.bind] at hstep
          cases hstep
        | ok sB =>
          intro hstep
          simp only [Except.bind] at hstep
          cases htw : tu.winner with
          | none =>
            rw [htw, handleWinner_none] at hstep
            cases hstep
            exact Or.inl ⟨by rw [(applyBot_ok h2).1, (applyUser_ok h1).1], rfl⟩
          | some w =>
            rw [htw] at hstep
            have h : ({ sB with winner := some w, status := winStatus w, socket := none }, [Action.close]) = (s1, acts1) := Except.ok.inj hstep
            injection h with ha hb
            right
            refine ⟨w, ?_, ?_, ?_, ?_⟩
            · rw [← ha]
            · rw [← hb]
              exact closeCount_close
            · rw [← ha]
            · rw [← ha]
    · split at hstep
      · cases hstep
        exact Or.inl ⟨rfl, closeCount_warn _⟩
      · cases hstep
        exact Or.inl ⟨rfl, rfl⟩

/-- Per-step analysis: the session invariant is preserved, a state with a
winner is frozen (no state change, no action), and a step emits exactly
one `close()` exactly when it records the winner. -/
lemma stepInv (s : SessionState) (e : Ev) (s1 : SessionState)
    (acts1 : List Action)
    (hstep : step s e = Except.ok (s1, acts1))
    (hconn : connEv e = true → s.socket ≠ none)
    (hinv : Inv s) :
    Inv s1 ∧
    (∀ w, s.winner = some w → s1 = s ∧ acts1 = []) ∧
    ((s1.winner = s.winner ∧ closeCount acts1 = 0) ∨
      (s.winner = none ∧ ∃ w, s1.winner = some w ∧ closeCount acts1 = 1 ∧
        s1.status = winStatus w ∧ s1.socket = none)) := by
  cases e with
  | opened =>
    have hwnone : s.winner = none := by
      cases hw : s.winner with
      | none => rfl
      | some w => exact absurd (hinv w hw).2 (hconn rfl)
    cases hstep
    refine ⟨?_, ?_, Or.inl ⟨rfl, rfl⟩⟩
    · intro w hw
      rw [show (onOpen s).winner = s.winner from rfl, hwnone] at hw
      cases hw
    · intro w hw
      rw [hwnone] at hw
      cases hw
  | closed =>
    cases hstep
    exact ⟨hinv, fun w _ => ⟨rfl, rfl⟩, Or.inl ⟨rfl, rfl⟩⟩
  | errored =>
    cases hstep
    exact ⟨hinv, fun w _ => ⟨rfl, rfl⟩, Or.inl ⟨rfl, rfl⟩⟩
  | shot row col =>
    have hmap : (handleShot s row col).map (fun acts => (s, acts)) =
        Except.ok (s1, acts1) := hstep
    cases hh : handleShot s row col with
    | error e =>
      rw [hh] at hmap
      cases hmap
    | ok acts =>
      rw [hh] at hmap
      cases hmap
      refine ⟨hinv, ?_, Or.inl ⟨rfl, handleShot_closeCount hh⟩⟩
      intro w hw
      rw [handleShot_winner_set row col (by rw [hw]; rfl)] at hh
      cases hh
      exact ⟨rfl, rfl⟩
  | message f =>
    have hwnone : s.winner = none := by
      cases hw : s.winner with
      | none => rfl
      | some w => exact absurd (hinv w hw).2 (hconn rfl)
    cases f with
    | none => cases hstep
    | some d =>
      have hp : handleParsed s d = Except.ok (s1, acts1) := hstep
      have h := handleParsedInv s d s1 acts1 hp
      refine ⟨?_, ?_, ?_⟩
      · rcases h with ⟨hww, -⟩ | ⟨w, hw1, -, hst, hsock⟩
        · intro w hw
          rw [hww, hwnone] at hw
          cases hw
        · intro w' hw'
          rw [hw1] at hw'
          cases hw'
          exact ⟨hst, hsock⟩
      · intro w hw
        rw [hwnone] at hw
        cases hw
      · rcases h with hL | hR
        · exact Or.inl hL
        · exact Or.inr ⟨hwnone, hR⟩

/-! ## Concrete frames and states for witnesses -/

/-- A Result/success frame whose turn update carries only `winner:"User"`. -/
def winnerFrame : WSMessage := successFrame ⟨none, none, some Winner.User⟩

/-- The session after the user-victory frame is handled from `sActive`. -/
def sWon : SessionState :=
  { sActive with winner := some Winner.User, status := GameStatus.VICTORY,
                 socket := none }

/-! ## Claim theorems -/

/-- C1 (counterexample): a frame whose text fails to parse as JSON makes
the message handler throw (there is no try/catch around `JSON.parse`),
contradicting the claim that decoding never raises an unhandled fault. -/
theorem c1_parse_throws_counterexample :
    handleMessage sActive none = Except.error "SyntaxError" := rfl

/-- C1 (amended): a frame that parses as JSON but matches none of the
recognized shapes (init-with-board, success-with-turn-update, error) is
silently ignored: the handler completes without throwing, logs nothing,
performs no action, and leaves the whole session state unchanged; a frame
whose text fails JSON parsing makes the handler throw an uncaught
exception before any state mutation. -/
theorem c1_decode_fault_behavior (s : SessionState) (d : WSMessage)
    (hInit : ¬(d.type = some "init" ∧ d.board ≠ none))
    (hSucc : ¬(d.status = some "success" ∧ d.turn_update ≠ none))
    (hErr : d.status ≠ some "error") :
    handleMessage s (some d) = Except.ok (s, []) ∧
    handleMessage s none = Except.error "SyntaxError" := by
  refine ⟨?_, rfl⟩
  show handleParsed s d = Except.ok (s, [])
  unfold handleParsed
  split
  · next heq1 heq2 =>
    exact absurd ⟨heq1, by rw [heq2]; exact fun h => by cases h⟩ hInit
  · split
    · next heq1 heq2 =>
      exact absurd ⟨heq1, by rw [heq2]; exact fun h => by cases h⟩ hSucc
    · split
      · next heq => exact absurd heq hErr
      · rfl

/-- C1 witness: the amended claim at a concrete unrecognized frame. -/
theorem c1_decode_fault_behavior_witness :
    handleMessage sActive (some ⟨some "zzz", none, none, none, none⟩) =
      Except.ok (sActive, []) ∧
    handleMessage sActive none = Except.error "SyntaxError" :=
  c1_decode_fault_behavior sActive ⟨some "zzz", none, none, none, none⟩
    (by decide) (by decide) (by decide)

/-- C2 (counterexample): in the window between connection creation and the
open signal the handle is already held while the status is still
`Connecting...`; `fireShot` transmits there, so transmission is not
equivalent to being in the `Battle Active` state. -/
theorem c2_sends_while_connecting_counterexample :
    step sConnecting (Ev.shot 0 0) =
      Except.ok (sConnecting, [Action.send "0,0"]) ∧
    sConnecting.status ≠ GameStatus.BattleActive ∧
    sConnecting.winner = none := by
  refine ⟨rfl, ?_, rfl⟩
  intro h
  cases h

/-- C2 (amended): for a coordinate whose row exists, `fireShot` transmits
the pair if and only if a connection handle is present, no winner is set,
and `enemyRadar[row][col] == Empty` (the guard checks handle presence, not
the `Battle Active` status); in every other case it is a no-op that
transmits nothing, and in no case does it mutate any part of the session
state. -/
theorem c2_fireShot_guard (s : SessionState) (row col : Nat)
    (h : row < s.enemyBoard.length) :
    step s (Ev.shot row col) = Except.ok (s,
      if s.socket ≠ none ∧ s.winner = none ∧
          cellAtD s.enemyBoard row col = JSCell.cell Cell.Empty
        then [Action.send (shotPayload row col)] else []) := by
  show (handleShot s row col).map (fun acts => (s, acts)) = _
  rw [handleShot_eq s row col h]
  rfl

/-- C2 witness: the guard theorem at a concrete in-range input. -/
theorem c2_fireShot_guard_witness :
    (0 : Nat) < sActive.enemyBoard.length ∧
    step sActive (Ev.shot 0 0) = Except.ok (sActive,
      if sActive.socket ≠ none ∧ sActive.winner = none ∧
          cellAtD sActive.enemyBoard 0 0 = JSCell.cell Cell.Empty
        then [Action.send (shotPayload 0 0)] else []) :=
  ⟨by decide, c2_fireShot_guard sActive 0 0 (by decide)⟩

/-- C3: for every inbound Result/success frame carrying a turn update with
no winner, the user-shot result (if present) lands on `enemyRadar`
(`enemyBoard`) at its coordinate, the opponent-shot result (if present)
lands on `ownFleet` (`myBoard`) at its coordinate, and status, winner,
connection handle and game id are unchanged (so an `Active` session stays
`Active` and the connection stays open); the handler performs no close and
no send. -/
theorem c3_turn_update_applied (s : SessionState) (tu : TurnUpdate)
    (hw : tu.winner = none)
    (hu : ∀ u, tu.user = some u → u.row < s.enemyBoard.length)
    (hb : ∀ b, tu.bot = some b → b.row < s.myBoard.length) :
    ∃ s', handleMessage s (some (successFrame tu)) = Except.ok (s', []) ∧
      (∀ u, tu.user = some u →
        cellAtD s'.enemyBoard u.row u.col = JSCell.cell u.result) ∧
      (tu.user = none → s'.enemyBoard = s.enemyBoard) ∧
      (∀ b, tu.bot = some b →
        cellAtD s'.myBoard b.row b.col = JSCell.cell b.result) ∧
      (tu.bot = none → s'.myBoard = s.myBoard) ∧
      s'.status = s.status ∧ s'.winner = s.winner ∧ s'.socket = s.socket ∧
      s'.gameId = s.gameId := by
  obtain ⟨s1, hs1, hs1none, hs1cell, hs1w, hs1st, hs1sock, hs1id, hs1my, hs1d⟩ :=
    applyUser_total hu
  have hb1 : ∀ b, tu.bot = some b → b.row < s1.myBoard.length := by
    intro b h'
    rw [hs1my]
    exact hb b h'
  obtain ⟨s2, hs2, hs2none, hs2cell, hs2w, hs2st, hs2sock, hs2id, hs2enemy, hs2d⟩ :=
    applyBot_total hb1
  refine ⟨s2, ?_, ?_, ?_, hs2cell, ?_, ?_, ?_, ?_, ?_⟩
  · show handleParsed s (successFrame tu) = Except.ok (s2, [])
    rw [handleParsed_success, hs1]
    simp only [Except.bind]
    rw [hs2]
    simp only [Except.bind]
    rw [hw, handleWinner_none]
  · intro u h'
    rw [hs2enemy]
    exact hs1cell u h'
  · intro h'
    rw [hs2enemy]
    exact hs1none h'
  · intro h'
    rw [hs2none h', hs1my]
  · rw [hs2st, hs1st]
  · rw [hs2w, hs1w]
  · rw [hs2sock, hs1sock]
  · rw [hs2id, hs1id]

/-- C3 witness: the claim scenario - user (3,4) Hit, bot (7,7) Miss, no
winner - from an active session with fresh boards. -/
theorem c3_turn_update_applied_witness :
    ∃ s', handleMessage sActive (some (successFrame
        ⟨some ⟨3, 4, Cell.Hit⟩, some ⟨7, 7, Cell.Miss⟩, none⟩)) =
      Except.ok (s', []) ∧
      cellAtD s'.enemyBoard 3 4 = JSCell.cell Cell.Hit ∧
      cellAtD s'.myBoard 7 7 = JSCell.cell Cell.Miss ∧
      s'.status = GameStatus.BattleActive ∧ s'.winner = none ∧
      s'.socket = some "g" := by
  obtain ⟨s', h1, h2, h3, h4, h5, h6, h7, h8, h9⟩ :=
    c3_turn_update_applied sActive
      ⟨some ⟨3, 4, Cell.Hit⟩, some ⟨7, 7, Cell.Miss⟩, none⟩ rfl
      (fun u h => by cases h; decide) (fun b h => by cases h; decide)
  refine ⟨s', h1, h2 _ rfl, h4 _ rfl, ?_, ?_, ?_⟩
  · rw [h6]
    rfl
  · rw [h7]
    rfl
  · rw [h8]
    rfl

/-- C4: along any execution of one session instance (connection-delivered
events only while the handle is held), the winner is set at most once:
from a state satisfying the session invariant, a state with a winner is
frozen (every further event, including `fireShot`, changes nothing and
emits nothing), at most one `close()` is ever issued, and if the winner
becomes set then exactly one `close()` was issued and the status is the
matching terminal status (`VICTORY` for `User`, `DEFEAT` for `Bot`) with
the handle cleared. -/
theorem c4_winner_once (s : SessionState) (evs : List Ev) (acts : List Action)
    (s' : SessionState) (htr : InstTrace s evs acts s') (hinv : Inv s) :
    Inv s' ∧
    (∀ w, s.winner = some w → s' = s ∧ acts = []) ∧
    closeCount acts ≤ 1 ∧
    (s.winner = none → ∀ w, s'.winner = some w →
      closeCount acts = 1 ∧ s'.status = winStatus w ∧ s'.socket = none) := by
  induction htr with
  | nil s0 =>
    refine ⟨hinv, fun w _ => ⟨rfl, rfl⟩, by rw [closeCount_nil]; omega, ?_⟩
    intro hn w hw
    rw [hn] at hw
    cases hw
  | cons s0 e s1 acts1 evs2 acts2 s2 hstep hconn htail ih =>
    obtain ⟨hinv1, hfrozen1, hthird⟩ := stepInv s0 e s1 acts1 hstep hconn hinv
    obtain ⟨ihInv, ihFrozen, ihCount, ihTrans⟩ := ih hinv1
    refine ⟨ihInv, ?_, ?_, ?_⟩
    · intro w hw
      obtain ⟨hs1, hacts1⟩ := hfrozen1 w hw
      obtain ⟨hs2, hacts2⟩ := ihFrozen w (by rw [hs1]; exact hw)
      constructor
      · rw [hs2, hs1]
      · rw [hacts1, hacts2]
        rfl
    · rw [closeCount_append]
      rcases hthird with ⟨-, hc1⟩ | ⟨-, w, hw1, hc1, -, -⟩
      · rw [hc1]
        omega
      · obtain ⟨-, hacts2⟩ := ihFrozen w hw1
        rw [hc1, hacts2, closeCount_nil]
    · intro hn w hw
      rw [closeCount_append]
      rcases hthird with ⟨hw1, hc1⟩ | ⟨-, w', hw1, hc1, hst, hsock⟩
      · have hn1 : s1.winner = none := by rw [hw1, hn]
        obtain ⟨hc2, hst2, hsock2⟩ := ihTrans hn1 w hw
        rw [hc1, hc2]
        exact ⟨rfl, hst2, hsock2⟩
      · obtain ⟨hs2, hacts2⟩ := ihFrozen w' hw1
        have hww : w' = w := by
          rw [hs2, hw1] at hw
          exact Option.some.inj hw
        subst hww
        rw [hc1, hacts2, closeCount_nil]
        refine ⟨rfl, ?_, ?_⟩
        · rw [hs2, hst]
        · rw [hs2, hsock]

/-- C4 witness: a concrete two-event instance trace - a user-victory frame
followed by a `fireShot` attempt - issues exactly one `close()` and ends
in `VICTORY` with the handle cleared. -/
theorem c4_winner_once_witness :
    closeCount ([Action.close] ++ ([] ++ [])) = 1 ∧
    sWon.status = winStatus Winner.User ∧ sWon.socket = none := by
  have htr : InstTrace sActive
      [Ev.message (some winnerFrame), Ev.shot 0 0]
      ([Action.close] ++ ([] ++ [])) sWon :=
    InstTrace.cons sActive (Ev.message (some winnerFrame)) sWon [Action.close]
      [Ev.shot 0 0] ([] ++ []) sWon rfl (fun _ => by decide)
      (InstTrace.cons sWon (Ev.shot 0 0) sWon [] [] [] sWon rfl
        (fun h => by cases h) (InstTrace.nil sWon))
  have h := c4_winner_once sActive _ _ _ htr (fun w hw => by cases hw)
  exact ⟨(h.2.2.2 rfl Winner.User rfl).1, (h.2.2.2 rfl Winner.User rfl).2.1,
    (h.2.2.2 rfl Winner.User rfl).2.2⟩

/-- C5 (counterexample): `connectToWebsocket` installs no `onclose` or
`onerror` handler, so a connection-close event in mid-battle with no
winner leaves the status unchanged - it does not become `Error`. -/
theorem c5_no_errored_transition_counterexample :
    step sActive Ev.closed = Except.ok (sActive, []) ∧
    sActive.winner = none ∧ sActive.status ≠ GameStatus.Error := by
  refine ⟨rfl, rfl, ?_⟩
  intro h
  cases h

/-- C5 (amended): on connection close or connection error the client runs
no code at all (no handler is installed): the session state is entirely
unchanged and no action - in particular no retry and no reconnection - is
performed; the status never transitions to `Error` from these events. -/
theorem c5_connection_loss_ignored (s : SessionState) :
    step s Ev.closed = Except.ok (s, []) ∧
    step s Ev.errored = Except.ok (s, []) := ⟨rfl, rfl⟩

/-- C6: for in-range coordinates on any board, `updateGrid` returns a new
snapshot whose cell (row, col) equals the written value while every other
cell equals the corresponding input cell, and the grid dimensions are
preserved; the input board itself is never mutated (the updater copies
every row, and the embedding is a pure function of the input snapshot). -/
theorem c6_updateGrid_copy_on_write (b : Board) (row col : Nat) (v : Cell)
    (hrow : row < b.length) (hcol : col < (b.getD row []).length) :
    ∃ b', updateGrid b row col v = Except.ok b' ∧
      cellAtD b' row col = JSCell.cell v ∧
      (∀ r c, ¬(r = row ∧ c = col) → cellAtD b' r c = cellAtD b r c) ∧
      b'.length = b.length ∧
      (∀ i, (b'.getD i []).length = (b.getD i []).length) :=
  updateGrid_in_range v hrow hcol

/-- C6 witness: the copy-on-write theorem at a concrete in-range input. -/
theorem c6_updateGrid_copy_on_write_witness :
    (3 : Nat) < createEmptyBoard.length ∧
    (4 : Nat) < (createEmptyBoard.getD 3 []).length ∧
    ∃ b', updateGrid createEmptyBoard 3 4 Cell.Hit = Except.ok b' ∧
      cellAtD b' 3 4 = JSCell.cell Cell.Hit ∧
      (∀ r c, ¬(r = 3 ∧ c = 4) → cellAtD b' r c = cellAtD createEmptyBoard r c) ∧
      b'.length = createEmptyBoard.length ∧
      (∀ i, (b'.getD i []).length = (createEmptyBoard.getD i []).length) :=
  ⟨by decide, by decide,
    c6_updateGrid_copy_on_write createEmptyBoard 3 4 Cell.Hit (by decide)
      (by decide)⟩

/-- C7: `startBotGame`, from any state, first closes and discards any
existing connection, clears the winner and resets both boards to all
`Empty` (the state at request time is the reset state), and only then
issues the creation request; on failure the status becomes `Error`, the
handle stays empty and no connection is opened. -/
theorem c7_startBotGame_reset_then_request (s : SessionState)
    (resp : Option String) :
    (resetForMission s).1.winner = none ∧
    (resetForMission s).1.myBoard = createEmptyBoard ∧
    (resetForMission s).1.enemyBoard = createEmptyBoard ∧
    (resetForMission s).1.socket = none ∧
    (s.socket = none → (resetForMission s).2 = []) ∧
    (∀ id, s.socket = some id → (resetForMission s).2 = [Action.close]) ∧
    (startBotGame s resp).1.winner = none ∧
    (startBotGame s resp).1.myBoard = createEmptyBoard ∧
    (startBotGame s resp).1.enemyBoard = createEmptyBoard ∧
    (resp = none → (startBotGame s resp).1.status = GameStatus.Error ∧
      (startBotGame s resp).1.socket = none ∧
      ∀ id, Action.connect id ∉ (startBotGame s resp).2) := by
  refine ⟨rfl, rfl, rfl, rfl, ?_, ?_, ?_, ?_, ?_, ?_⟩
  · intro h
    simp [resetForMission, h]
  · intro id h
    simp [resetForMission, h]
  · cases resp <;> rfl
  · cases resp <;> rfl
  · cases resp <;> rfl
  · intro h
    subst h
    refine ⟨rfl, rfl, ?_⟩
    intro id hmem
    simp only [startBotGame, resetForMission] at hmem
    cases hs : s.socket with
    | none =>
      rw [hs] at hmem
      simp at hmem
    | some sid =>
      rw [hs] at hmem
      simp at hmem

/-- C7 witness: a failing creation request from an active session ends in
`Error` with no handle, fresh boards, and no connection opened. -/
theorem c7_startBotGame_reset_then_request_witness :
    (startBotGame sActive none).1.status = GameStatus.Error ∧
    (startBotGame sActive none).1.socket = none ∧
    (startBotGame sActive none).1.winner = none ∧
    (startBotGame sActive none).1.myBoard = createEmptyBoard ∧
    Action.connect "id1" ∉ (startBotGame sActive none).2 := by
  have h := c7_startBotGame_reset_then_request sActive none
  have h10 := h.2.2.2.2.2.2.2.2.2 rfl
  exact ⟨h10.1, h10.2.1, h.2.2.2.2.2.2.1, h.2.2.2.2.2.2.2.1, h10.2.2 "id1"⟩

/-- C8 (counterexample): `updateGrid` is not bounds-checked: writing at
column 12 of row 0 of the fresh 10×10 board succeeds and grows that row
to length 13 (a write outside the grid), and writing at row 12 throws an
uncaught `TypeError`. -/
theorem c8_out_of_bounds_counterexample :
    (∃ b', updateGrid createEmptyBoard 0 12 Cell.Hit = Except.ok b' ∧
      (b'.getD 0 []).length = 13 ∧ 10 < (b'.getD 0 []).length) ∧
    updateGrid createEmptyBoard 12 0 Cell.Hit = Except.error "TypeError" := by
  constructor
  · exact ⟨_, rfl, rfl, by decide⟩
  · rfl

/-- C8 (amended): `updateGrid` performs no bounds check: a row index past
the board throws an uncaught `TypeError`; an in-range row with a column
index past the row's end silently grows that row to `col + 1` cells (an
unchecked write outside the grid); only for in-range coordinates is the
write contained, preserving the grid dimensions and never faulting.
Inbound frame coordinates reach `updateGrid` unvalidated. -/
theorem c8_updateGrid_unchecked (b : Board) (row col : Nat) (v : Cell) :
    (b.length ≤ row → updateGrid b row col v = Except.error "TypeError") ∧
    (row < b.length → (b.getD row []).length ≤ col →
      ∃ b', updateGrid b row col v = Except.ok b' ∧
        (b'.getD row []).length = col + 1) ∧
    (row < b.length → col < (b.getD row []).length →
      ∃ b', updateGrid b row col v = Except.ok b' ∧
        b'.length = b.length ∧
        (∀ i, (b'.getD i []).length = (b.getD i []).length)) := by
  refine ⟨fun h => updateGrid_err h col v, fun hrow hcol => ?_,
    fun hrow hcol => ?_⟩
  · refine ⟨_, updateGrid_ok hrow col v, ?_⟩
    rw [getD_set_self hrow, jsAssign_length_of_ge hcol]
  · obtain ⟨b', h1, h2, h3, h4, h5⟩ := updateGrid_in_range v hrow hcol
    exact ⟨b', h1, h4, h5⟩

/-- C8 witness: the amended claim at concrete inputs - an out-of-range
row faults, an out-of-range column grows the row, an in-range write
preserves the dimensions. -/
theorem c8_updateGrid_unchecked_witness :
    updateGrid createEmptyBoard 12 0 Cell.Hit = Except.error "TypeError" ∧
    (∃ b', updateGrid createEmptyBoard 0 12 Cell.Hit = Except.ok b' ∧
      (b'.getD 0 []).length = 13) ∧
    (∃ b', updateGrid createEmptyBoard 5 5 Cell.Miss = Except.ok b' ∧
      b'.length = createEmptyBoard.length ∧
      (∀ i, (b'.getD i []).length = (createEmptyBoard.getD i []).length)) := by
  refine ⟨(c8_updateGrid_unchecked createEmptyBoard 12 0 Cell.Hit).1 (by decide),
    ?_, (c8_updateGrid_unchecked createEmptyBoard 5 5 Cell.Miss).2.2 (by decide)
      (by decide)⟩
  have h := (c8_updateGrid_unchecked createEmptyBoard 0 12 Cell.Hit).2.1
    (by decide) (by decide)
  exact h

/-- C9: an inbound Result/error frame (no `type` field, `status:"error"`)
produces only a console warning carrying the frame's message: the session
state - status, winner, both boards, handle - is exactly as before and no
close or send is performed, so the player may submit another shot. -/
theorem c9_error_frame_logged_only (s : SessionState) (d : WSMessage)
    (ht : d.type = none) (hs : d.status = some "error") :
    handleMessage s (some d) = Except.ok (s, [Action.warn d.message]) := by
  obtain ⟨ty, st, bo, tu, msg⟩ := d
  cases ht
  cases hs
  cases tu with
  | none => rfl
  | some t => rfl

/-- C9 witness: a concrete rejection frame against an active session. -/
theorem c9_error_frame_logged_only_witness :
    handleMessage sActive (some ⟨none, some "error", none, none, some "bad"⟩) =
      Except.ok (sActive, [Action.warn (some "bad")]) :=
  c9_error_frame_logged_only sActive ⟨none, some "error", none, none, some "bad"⟩
    rfl rfl

/-- C10: a well-formed frame with a recognized discriminator but no
companion payload is silently ignored with all state unchanged: `init`
without a board does not overwrite `myBoard`, and `success` without a
`turn_update` updates neither board, nor the winner, nor the status; in
both cases no action is performed. -/
theorem c10_partial_frame_ignored (s : SessionState) :
    handleMessage s (some ⟨some "init", none, none, none, none⟩) =
      Except.ok (s, []) ∧
    handleMessage s (some ⟨none, some "success", none, none, none⟩) =
      Except.ok (s, []) := ⟨rfl, rfl⟩
end Battleship
